import Mathlib

/-!
Shallow embedding of the APS-calculator frontend (React/TypeScript) in Lean 4.

The definitions below translate, function by function, the parts of
`src/App.tsx`, `src/components/Sidebar.tsx` and `src/components/Results.tsx`
that the verified claims are about.  JavaScript numbers are modelled as exact
rationals (ℚ); `parseFloat`/`parseInt` results are modelled as `Option`
values, `none` standing for `NaN`.
-/

namespace APSCalc

/-- Agreement thresholds `{min, des, opt}` (percentages), from `types.ts`
(`AppState.agreementThresholds`). -/
structure Thresholds where
  min : ℚ
  des : ℚ
  opt : ℚ
deriving DecidableEq

/-- One aggregated grid point, from `types.ts` (`SimulationPoint`). -/
structure SimulationPoint where
  mu : ℚ
  bias : ℚ
  agreement : ℚ
  sensitivity : ℚ
  specificity : ℚ
  agreement_cat : String
  sensitivity_cat : String
  specificity_cat : String
  sublevel_agreement : List ℚ
  sublevel_sensitivity : List ℚ
  sublevel_specificity : List ℚ
deriving DecidableEq

/-- The simulation output consumed by the presentation layer, from
`types.ts` (`SimulationResult`). -/
structure SimulationResult where
  mu_data : List SimulationPoint
  names : List String
deriving DecidableEq

/-- The metric selector threaded through `Results.tsx`
(`'agreement' | 'sensitivity' | 'specificity'`). -/
inductive Metric
  | agreement
  | sensitivity
  | specificity
deriving DecidableEq

/-- The column selector of `getLimit` in `Results.tsx`
(`'mu' | 'bias_pos' | 'bias_neg'`). -/
inductive LimitType
  | mu
  | bias_pos
  | bias_neg
deriving DecidableEq

/-- The metric value of a point: `Results.tsx` computes
`levelIndex !== undefined ? d.sublevel_<metric>?.[levelIndex] : d[metric]`
and guards the sublevel lookup with `?? 0`. -/
def metricValue (metric : Metric) (levelIndex : Option Nat) (d : SimulationPoint) : ℚ :=
  match levelIndex with
  | some i =>
    (match metric with
     | Metric.agreement => d.sublevel_agreement
     | Metric.sensitivity => d.sublevel_sensitivity
     | Metric.specificity => d.sublevel_specificity).getD i 0
  | none =>
    match metric with
    | Metric.agreement => d.agreement
    | Metric.sensitivity => d.sensitivity
    | Metric.specificity => d.specificity

/-- The filter step of `getLimit` (`Results.tsx` line 55):
`results.mu_data.filter(d => (val ?? 0) * 100 >= threshold)`. -/
def validPoints (res : SimulationResult) (metric : Metric) (levelIndex : Option Nat)
    (threshold : ℚ) : List SimulationPoint :=
  res.mu_data.filter fun d => decide (threshold ≤ metricValue metric levelIndex d * 100)

/-- `Math.max(...xs)` on a list known to be non-empty at every call site
(the `[]` branch is unreachable in `getLimit`; JavaScript would give
`-Infinity` there). -/
def listMax : List ℚ → ℚ
  | [] => 0
  | x :: xs => xs.foldl max x

/-- `Math.min(...xs)` on a list known to be non-empty at every call site. -/
def listMin : List ℚ → ℚ
  | [] => 0
  | x :: xs => xs.foldl min x

/-- JavaScript's `q.toFixed(1)`: round to one decimal (half away from zero)
and print with exactly one digit after the point. -/
def toFixed1 (q : ℚ) : String :=
  let n : Int := if 0 ≤ q then ⌊q * 10 + 1 / 2⌋ else -⌊-q * 10 + 1 / 2⌋
  let m : Nat := n.natAbs
  (if n < 0 then "-" else "") ++ toString (m / 10) ++ "." ++ toString (m % 10)

/-- The APS-limit lookup `getLimit` of `Results.tsx` (lines 53–79):
filter the grid by the threshold, return `"NO"` when nothing qualifies,
otherwise take the max `mu * 100` (type `'mu'`), the max `bias * 100`
(`'bias_pos'`) or the min `bias * 100` (`'bias_neg'`), and render it with
`toFixed(1)` unless the 33 % cutoff makes it `"NA"`. -/
def getLimit (res : SimulationResult) (metric : Metric) (levelIndex : Option Nat)
    (threshold : ℚ) (ty : LimitType) : String :=
  let valid := validPoints res metric levelIndex threshold
  if valid.length = 0 then "NO"
  else
    match ty with
    | LimitType.mu =>
      let maxMu := listMax (valid.map fun d => d.mu * 100)
      if 33 < maxMu then "NA" else toFixed1 maxMu
    | LimitType.bias_pos =>
      let maxBias := listMax (valid.map fun d => d.bias * 100)
      if 33 < maxBias then "NA" else toFixed1 maxBias
    | LimitType.bias_neg =>
      let minBias := listMin (valid.map fun d => d.bias * 100)
      if 33 < |minBias| then "NA" else toFixed1 minBias

/-- The non-pastel colour chain of `renderScatterPlot` (`Results.tsx`
lines 179–182), applied to a metric value already scaled by 100. -/
def standardColor (th : Thresholds) (val : ℚ) : String :=
  if th.opt ≤ val then "rgb(0, 0, 255)"
  else if th.des ≤ val then "rgb(0, 176, 0)"
  else if th.min ≤ val then "rgb(166, 0, 0)"
  else "rgb(200, 200, 200)"

/-- The pastel colour chain of `renderScatterPlot` (`Results.tsx`
lines 174–177). -/
def pastelColor (th : Thresholds) (val : ℚ) : String :=
  if th.opt ≤ val then "#76C7C0"
  else if th.des ≤ val then "#5DADE2"
  else if th.min ≤ val then "#F4D03F"
  else "#EC7063"

/-- The four combined-plot categories of `renderCombinedPlot`
(`Results.tsx` lines 276–279). -/
inductive CombinedCategory
  | sensSpec
  | sensOnly
  | specOnly
  | other
deriving DecidableEq

/-- The category assignment of `renderCombinedPlot` (`Results.tsx`
lines 270–280): `sensPass = sens >= min`, `specPass = spec >= min`, then
the first matching branch of the `if` chain. -/
def combinedCategory (th : Thresholds) (d : SimulationPoint) (levelIndex : Nat) :
    CombinedCategory :=
  let sens := d.sublevel_sensitivity.getD levelIndex 0 * 100
  let spec := d.sublevel_specificity.getD levelIndex 0 * 100
  let sensPass := th.min ≤ sens
  let specPass := th.min ≤ spec
  if sensPass ∧ specPass then CombinedCategory.sensSpec
  else if sensPass then CombinedCategory.sensOnly
  else if specPass then CombinedCategory.specOnly
  else CombinedCategory.other

/-- The four simulation-model strings of `types.ts` (`SimulationModel`). -/
inductive SimulationModel
  | muRerun
  | muResampling
  | impBiasRerun
  | impBiasResampling
deriving DecidableEq

/-- The application state held by `App.tsx`, from `types.ts` (`AppState`). -/
structure AppState where
  simulationModel : SimulationModel
  filePath : Option String
  analyteName : Option String
  decimalPlaces : Nat
  cdls : List ℚ
  agreementThresholds : Thresholds
  biologicalVariation : ℚ
  sampleSize : Option Int
  maxImprecision : ℚ
  maxBias : ℚ
  maxMu : ℚ
  stepSizeMu : ℚ
  stepSizeImpBias : ℚ
  useCustomBoundaries : Bool
deriving DecidableEq

/-- The initial state of `App.tsx` (lines 11–26). -/
def initialAppState : AppState :=
  { simulationModel := SimulationModel.muRerun
    filePath := none
    analyteName := none
    decimalPlaces := 0
    cdls := [0]
    agreementThresholds := { min := 90, des := 95, opt := 99 }
    biologicalVariation := 0
    sampleSize := none
    maxImprecision := 33.3
    maxBias := 35
    maxMu := 33.1
    stepSizeMu := 0.1
    stepSizeImpBias := 1.0
    useCustomBoundaries := false }

/-- The `config` object built by `handleSimulate` (`App.tsx` lines 113–130)
and sent across the `run_simulation_async` invocation boundary. -/
structure SimulationConfig where
  model : SimulationModel
  data : List ℚ
  cdls : List ℚ
  decimal_places : Nat
  agreement_thresholds : List ℚ
  cv_i : Option ℚ
  sample_size : Option Int
  max_imprecision : Option ℚ
  max_bias : Option ℚ
  max_mu : Option ℚ
  step_size_mu : Option ℚ
  step_size_imp_bias : Option ℚ
deriving DecidableEq

/-- Translation of the `config` literal of `handleSimulate`
(`App.tsx` lines 113–130); in particular
`cv_i: state.biologicalVariation > 0 ? state.biologicalVariation : null`. -/
def buildConfig (st : AppState) (data : List ℚ) : SimulationConfig :=
  { model := st.simulationModel
    data := data
    cdls := st.cdls
    decimal_places := st.decimalPlaces
    agreement_thresholds :=
      [st.agreementThresholds.min, st.agreementThresholds.des, st.agreementThresholds.opt]
    cv_i := if 0 < st.biologicalVariation then some st.biologicalVariation else none
    sample_size := st.sampleSize
    max_imprecision := if st.useCustomBoundaries then some st.maxImprecision else none
    max_bias := if st.useCustomBoundaries then some st.maxBias else none
    max_mu := if st.useCustomBoundaries then some st.maxMu else none
    step_size_mu := if st.useCustomBoundaries then some st.stepSizeMu else none
    step_size_imp_bias := if st.useCustomBoundaries then some st.stepSizeImpBias else none }

/-- The pieces of `App.tsx` component state that `handleSimulate` touches. -/
structure FrontendState where
  results : Option SimulationResult
  originalData : Option (List ℚ)
  isSimulating : Bool
  progress : ℚ
deriving DecidableEq

/-- `handleSimulate` (`App.tsx` lines 93–141), after its file/column guard,
as a state transformer.  `loadOutcome` is the settled promise of the
`load_column_data` invocation and `simOutcome` that of
`run_simulation_async` on the loaded data; a `catch` branch only alerts,
and the `finally` branch clears `isSimulating`. -/
def handleSimulate (loadOutcome : Except String (List ℚ))
    (simOutcome : List ℚ → Except String SimulationResult)
    (st : FrontendState) : FrontendState :=
  let st1 : FrontendState := { st with isSimulating := true, progress := 0 }
  match loadOutcome with
  | Except.error _ => { st1 with isSimulating := false }
  | Except.ok data =>
    let st2 : FrontendState := { st1 with originalData := some data }
    match simOutcome data with
    | Except.error _ => { st2 with isSimulating := false }
    | Except.ok result => { st2 with results := some result, isSimulating := false }

/-- `addCDL` of `Sidebar.tsx` (lines 34–38): append a `0` entry while
fewer than 7 decision limits are configured. -/
def addCDL (st : AppState) : AppState :=
  if st.cdls.length < 7 then { st with cdls := st.cdls ++ [0] } else st

/-- `removeCDL` of `Sidebar.tsx` (lines 40–44): drop the last entry while
more than 1 decision limit is configured. -/
def removeCDL (st : AppState) : AppState :=
  if 1 < st.cdls.length then { st with cdls := st.cdls.dropLast } else st

/-- The `onChange` handler of the "Max Measurement Uncertainty (%)" input
(`Sidebar.tsx` lines 200–204): a parsed value is clamped to at most 33.3,
`NaN` stores 0. -/
def handleMaxMuChange (st : AppState) (input : Option ℚ) : AppState :=
  match input with
  | some v => { st with maxMu := min v 33.3 }
  | none => { st with maxMu := 0 }

/-- The `onChange` handler of the "Max Imprecision (CV%)" input
(`Sidebar.tsx` lines 226–230). -/
def handleMaxImprecisionChange (st : AppState) (input : Option ℚ) : AppState :=
  match input with
  | some v => { st with maxImprecision := min v 33.3 }
  | none => { st with maxImprecision := 0 }

/-- The `onChange` handler of the "Max Bias (%)" input
(`Sidebar.tsx` lines 240–244): clamp to at most 100, `NaN` stores 0. -/
def handleMaxBiasChange (st : AppState) (input : Option ℚ) : AppState :=
  match input with
  | some v => { st with maxBias := min v 100 }
  | none => { st with maxBias := 0 }

/-- The `onChange` handler of the sample-size input (`Sidebar.tsx`
lines 284–292): `const max = dataCount || Infinity` (so a missing or zero
count means no cap), a parsed value stores `Math.min(val, max)`, `NaN`
stores 0 ("Allow clearing to type"). -/
def handleSampleSizeChange (input : Option Int) (dataCount : Option Nat) : Option Int :=
  match input with
  | some v =>
    some (match dataCount with
          | some n => if n = 0 then v else min v (n : Int)
          | none => v)
  | none => some 0

/-- The spec-side vocabulary for `getLimit`: the values the extremum is
taken over, per column type. -/
def limitPool (res : SimulationResult) (metric : Metric) (levelIndex : Option Nat)
    (threshold : ℚ) : LimitType → List ℚ
  | LimitType.mu => (validPoints res metric levelIndex threshold).map fun d => d.mu * 100
  | LimitType.bias_pos => (validPoints res metric levelIndex threshold).map fun d => d.bias * 100
  | LimitType.bias_neg => (validPoints res metric levelIndex threshold).map fun d => d.bias * 100

/-- The extremum direction of each `getLimit` column: max for `'mu'` and
`'bias_pos'`, min for `'bias_neg'`. -/
def chosenExtremum (ty : LimitType) (m : ℚ) (pool : List ℚ) : Prop :=
  match ty with
  | LimitType.bias_neg => m ∈ pool ∧ ∀ x ∈ pool, m ≤ x
  | _ => m ∈ pool ∧ ∀ x ∈ pool, x ≤ m

/-- The `"NA"` cutoff of each `getLimit` column as implemented:
`> 33` for `'mu'` and `'bias_pos'`, `Math.abs(..) > 33` for `'bias_neg'`. -/
def naCut (ty : LimitType) (m : ℚ) : Prop :=
  match ty with
  | LimitType.bias_neg => 33 < |m|
  | _ => 33 < m

instance (ty : LimitType) (m : ℚ) : Decidable (naCut ty m) :=
  match ty with
  | LimitType.mu => inferInstanceAs (Decidable (33 < m))
  | LimitType.bias_pos => inferInstanceAs (Decidable (33 < m))
  | LimitType.bias_neg => inferInstanceAs (Decidable (33 < |m|))

theorem foldl_max_init_le (xs : List ℚ) : ∀ a : ℚ, a ≤ xs.foldl max a := by
  induction xs with
  | nil => intro a; exact le_refl a
  | cons x xs ih =>
    intro a
    exact le_trans (le_max_left a x) (ih (max a x))

theorem le_foldl_max (xs : List ℚ) : ∀ (a x : ℚ), x ∈ xs → x ≤ xs.foldl max a := by
  induction xs with
  | nil => intro a x hx; cases hx
  | cons y ys ih =>
    intro a x hx
    rcases List.mem_cons.mp hx with h | h
    · subst h
      exact le_trans (le_max_right a x) (foldl_max_init_le ys (max a x))
    · exact ih (max a y) x h

theorem foldl_max_mem (xs : List ℚ) : ∀ a : ℚ, xs.foldl max a = a ∨ xs.foldl max a ∈ xs := by
  induction xs with
  | nil => intro a; exact Or.inl rfl
  | cons y ys ih =>
    intro a
    rw [List.foldl_cons]
    rcases ih (max a y) with h | h
    · rw [h]
      rcases le_total a y with hy | hy
      · exact Or.inr (List.mem_cons.mpr (Or.inl (max_eq_right hy)))
      · exact Or.inl (max_eq_left hy)
    · exact Or.inr (List.mem_cons.mpr (Or.inr h))

theorem listMax_mem (xs : List ℚ) (h : xs ≠ []) : listMax xs ∈ xs := by
  cases xs with
  | nil => exact absurd rfl h
  | cons x ys =>
    rcases foldl_max_mem ys x with hx | hx
    · rw [listMax, hx]; exact List.mem_cons_self x ys
    · rw [listMax]; exact List.mem_cons.mpr (Or.inr hx)

theorem le_listMax (xs : List ℚ) (x : ℚ) (hx : x ∈ xs) : x ≤ listMax xs := by
  cases xs with
  | nil => cases hx
  | cons y ys =>
    rcases List.mem_cons.mp hx with h | h
    · rw [listMax, h]; exact foldl_max_init_le ys y
    · rw [listMax]; exact le_foldl_max ys y x h

theorem listMax_eq_of (xs : List ℚ) (m : ℚ) (hm : m ∈ xs) (hub : ∀ x ∈ xs, x ≤ m) :
    listMax xs = m := by
  have hne : xs ≠ [] := by intro h; rw [h] at hm; cases hm
  exact le_antisymm (hub _ (listMax_mem xs hne)) (le_listMax xs m hm)

theorem foldl_min_init_le (xs : List ℚ) : ∀ a : ℚ, xs.foldl min a ≤ a := by
  induction xs with
  | nil => intro a; exact le_refl a
  | cons x xs ih =>
    intro a
    exact le_trans (ih (min a x)) (min_le_left a x)

theorem foldl_min_le (xs : List ℚ) : ∀ (a x : ℚ), x ∈ xs → xs.foldl min a ≤ x := by
  induction xs with
  | nil => intro a x hx; cases hx
  | cons y ys ih =>
    intro a x hx
    rcases List.mem_cons.mp hx with h | h
    · subst h
      exact le_trans (foldl_min_init_le ys (min a x)) (min_le_right a x)
    · exact ih (min a y) x h

theorem foldl_min_mem (xs : List ℚ) : ∀ a : ℚ, xs.foldl min a = a ∨ xs.foldl min a ∈ xs := by
  induction xs with
  | nil => intro a; exact Or.inl rfl
  | cons y ys ih =>
    intro a
    rw [List.foldl_cons]
    rcases ih (min a y) with h | h
    · rw [h]
      rcases le_total a y with hy | hy
      · exact Or.inl (min_eq_left hy)
      · exact Or.inr (List.mem_cons.mpr (Or.inl (min_eq_right hy)))
    · exact Or.inr (List.mem_cons.mpr (Or.inr h))

theorem listMin_mem (xs : List ℚ) (h : xs ≠ []) : listMin xs ∈ xs := by
  cases xs with
  | nil => exact absurd rfl h
  | cons x ys =>
    rcases foldl_min_mem ys x with hx | hx
    · rw [listMin, hx]; exact List.mem_cons_self x ys
    · rw [listMin]; exact List.mem_cons.mpr (Or.inr hx)

theorem listMin_le (xs : List ℚ) (x : ℚ) (hx : x ∈ xs) : listMin xs ≤ x := by
  cases xs with
  | nil => cases hx
  | cons y ys =>
    rcases List.mem_cons.mp hx with h | h
    · rw [listMin, h]; exact foldl_min_init_le ys y
    · rw [listMin]; exact foldl_min_le ys y x h

theorem listMin_eq_of (xs : List ℚ) (m : ℚ) (hm : m ∈ xs) (hlb : ∀ x ∈ xs, m ≤ x) :
    listMin xs = m := by
  have hne : xs ≠ [] := by intro h; rw [h] at hm; cases hm
  exact le_antisymm (listMin_le xs m hm) (hlb _ (listMin_mem xs hne))

/-- C3: if `load_column_data` or `run_simulation_async` rejects,
`handleSimulate` leaves the displayed results unchanged (the `catch`
branch only alerts); the results state is replaced exactly when
`run_simulation_async` resolves with a complete `SimulationResult`. -/
theorem simulate_error_keeps_results (st : FrontendState) (e : String) (data : List ℚ)
    (f : List ℚ → Except String SimulationResult) (r : SimulationResult) :
    (handleSimulate (Except.error e) f st).results = st.results ∧
    (handleSimulate (Except.ok data) (fun _ => Except.error e) st).results = st.results ∧
    (handleSimulate (Except.ok data) (fun _ => Except.ok r) st).results = some r :=
  ⟨rfl, rfl, rfl⟩

/-- C4: in the config sent across the invocation boundary, `cv_i` is
present exactly when the configured biological variation is strictly
positive, and hence every present `cv_i` is strictly positive. -/
theorem config_cv_i_iff_positive (st : AppState) (data : List ℚ) :
    ((buildConfig st data).cv_i ≠ none ↔ 0 < st.biologicalVariation) ∧
    ∀ c : ℚ, (buildConfig st data).cv_i = some c → 0 < c := by
  constructor
  · by_cases h : 0 < st.biologicalVariation <;> simp [buildConfig, h]
  · intro c hc
    by_cases h : 0 < st.biologicalVariation
    · simp [buildConfig, h] at hc
      exact hc ▸ h
    · simp [buildConfig, h] at hc

/-- C5 counterexample: the max-measurement-uncertainty change handler
accepts a negative override (`parseFloat("-5")` is not `NaN`, and
`Math.min(-5, 33.3) = -5`), so the stored override is not positive. -/
theorem override_not_positive_cex :
    (handleMaxMuChange initialAppState (some (-5))).maxMu = -5 ∧
    ¬ 0 < (handleMaxMuChange initialAppState (some (-5))).maxMu := by
  have h : (handleMaxMuChange initialAppState (some (-5))).maxMu = -5 := by
    simp only [handleMaxMuChange]
    exact min_eq_left (by norm_num)
  refine ⟨h, ?_⟩
  rw [h]
  norm_num

/-- C5 (amended): after any boundary-override change-handler invocation
the stored `maxMu` and `maxImprecision` are at most 33.3 and the stored
`maxBias` is at most 100 (positivity is not enforced: `NaN` stores 0 and
negative values are stored unchanged). -/
theorem override_caps (st : AppState) (input : Option ℚ) :
    (handleMaxMuChange st input).maxMu ≤ 33.3 ∧
    (handleMaxImprecisionChange st input).maxImprecision ≤ 33.3 ∧
    (handleMaxBiasChange st input).maxBias ≤ 100 := by
  refine ⟨?_, ?_, ?_⟩ <;> cases input <;>
    simp only [handleMaxMuChange, handleMaxImprecisionChange, handleMaxBiasChange] <;>
    norm_num

/-- C6 counterexample: a non-numeric sample-size entry stores 0
("Allow clearing to type"), which lies below the claimed lower bound 1. -/
theorem sample_size_below_one_cex :
    handleSampleSizeChange none (some 10) = some 0 ∧ ¬ (1 : Int) ≤ 0 :=
  ⟨rfl, by decide⟩

/-- C6 (amended): with a dataset of `n > 0` elements loaded, any value
stored by the sample-size change handler is at most `n`; the lower
bound 1 is not enforced (`NaN` stores 0, values below 1 are kept). -/
theorem sample_size_never_exceeds_count (input : Option Int) (n : Nat) (hn : 0 < n)
    (v : Int) (hv : handleSampleSizeChange input (some n) = some v) : v ≤ (n : Int) := by
  cases input with
  | none =>
    simp only [handleSampleSizeChange, Option.some.injEq] at hv
    rw [← hv]
    exact_mod_cast Int.ofNat_nonneg n
  | some w =>
    have hn0 : n ≠ 0 := Nat.pos_iff_ne_zero.mp hn
    simp only [handleSampleSizeChange, hn0, if_false, Option.some.injEq] at hv
    rw [← hv]
    exact min_le_right w (n : Int)

theorem sample_size_cap_witness :
    handleSampleSizeChange (some 15) (some 10) = some 10 ∧ (10 : Int) ≤ ((10 : Nat) : Int) :=
  ⟨by decide, sample_size_never_exceeds_count (some 15) 10 (by decide) 10 (by decide)⟩

/-- C7: starting from a state whose decision-limit count is in [1, 7],
both `addCDL` (appends only below 7) and `removeCDL` (drops only above 1)
keep the count in [1, 7]. -/
theorem cdl_count_stays_in_bounds (st : AppState)
    (h1 : 1 ≤ st.cdls.length) (h7 : st.cdls.length ≤ 7) :
    (1 ≤ (addCDL st).cdls.length ∧ (addCDL st).cdls.length ≤ 7) ∧
    (1 ≤ (removeCDL st).cdls.length ∧ (removeCDL st).cdls.length ≤ 7) := by
  constructor
  · by_cases h : st.cdls.length < 7 <;> simp [addCDL, h] <;> omega
  · by_cases h : 1 < st.cdls.length <;> simp [removeCDL, h, List.length_dropLast] <;> omega

theorem cdl_count_witness :
    (1 ≤ (addCDL initialAppState).cdls.length ∧ (addCDL initialAppState).cdls.length ≤ 7) ∧
    (1 ≤ (removeCDL initialAppState).cdls.length ∧
      (removeCDL initialAppState).cdls.length ≤ 7) :=
  cdl_count_stays_in_bounds initialAppState (by decide) (by decide)

/-- C8: the initial application state carries the documented grid
defaults: `maxMu = 33.1`, `stepSizeMu = 0.1`, `maxImprecision = 33.3`,
`maxBias = 35`, `stepSizeImpBias = 1.0`, thresholds `{90, 95, 99}`. -/
theorem initial_state_grid_defaults :
    initialAppState.maxMu = 33.1 ∧ initialAppState.stepSizeMu = 0.1 ∧
    initialAppState.maxImprecision = 33.3 ∧ initialAppState.maxBias = 35 ∧
    initialAppState.stepSizeImpBias = 1.0 ∧
    initialAppState.agreementThresholds.min = 90 ∧
    initialAppState.agreementThresholds.des = 95 ∧
    initialAppState.agreementThresholds.opt = 99 :=
  ⟨rfl, rfl, rfl, rfl, rfl, rfl, rfl, rfl⟩

/-- A grid point whose (overall and sublevel) agreement is 0.80, for the
worked example of the categorical-bucket claim. -/
def examplePoint80 : SimulationPoint :=
  { mu := 0, bias := 0, agreement := 4/5, sensitivity := 1, specificity := 1,
    agreement_cat := "", sensitivity_cat := "", specificity_cat := "",
    sublevel_agreement := [4/5], sublevel_sensitivity := [1], sublevel_specificity := [1] }

/-- C2: the colour chain of `renderScatterPlot` buckets a metric value
(already scaled by 100) in descending threshold order — optimal iff
`v ≥ opt`, else desirable iff `v ≥ des`, else minimum iff `v ≥ min`, else
below-min — and with thresholds `{90, 95, 99}` a grid point with
agreement 0.80 lands in the below-min bucket. -/
theorem bucket_descending_order (th : Thresholds) (v : ℚ) :
    (standardColor th v = "rgb(0, 0, 255)" ↔ th.opt ≤ v) ∧
    (standardColor th v = "rgb(0, 176, 0)" ↔ v < th.opt ∧ th.des ≤ v) ∧
    (standardColor th v = "rgb(166, 0, 0)" ↔ v < th.opt ∧ v < th.des ∧ th.min ≤ v) ∧
    (standardColor th v = "rgb(200, 200, 200)" ↔ v < th.opt ∧ v < th.des ∧ v < th.min) ∧
    (pastelColor th v = "#EC7063" ↔ v < th.opt ∧ v < th.des ∧ v < th.min) ∧
    standardColor ⟨90, 95, 99⟩ (metricValue Metric.agreement none examplePoint80 * 100) =
      "rgb(200, 200, 200)" ∧
    pastelColor ⟨90, 95, 99⟩ (metricValue Metric.agreement none examplePoint80 * 100) =
      "#EC7063" := by
  refine ⟨?_, ?_, ?_, ?_, ?_, ?_, ?_⟩
  · simp only [standardColor]; split_ifs with h1 h2 h3 <;> simp_all
  · simp only [standardColor]; split_ifs with h1 h2 h3 <;> simp_all [not_le]
  · simp only [standardColor]; split_ifs with h1 h2 h3 <;> simp_all [not_le]
  · simp only [standardColor]; split_ifs with h1 h2 h3 <;> simp_all [not_le]
  · simp only [pastelColor]; split_ifs with h1 h2 h3 <;> simp_all [not_le]
  · norm_num [standardColor, metricValue, examplePoint80]
  · norm_num [pastelColor, metricValue, examplePoint80]

/-- C10: in `renderCombinedPlot` every grid point falls in exactly one of
the four combined categories; "Sensitivity" is assigned iff the sublevel
sensitivity passes the min threshold while specificity fails it, and
symmetrically for "Specificity". -/
theorem combined_plot_partition (th : Thresholds) (d : SimulationPoint) (i : Nat) :
    (combinedCategory th d i = CombinedCategory.sensSpec ↔
      th.min ≤ d.sublevel_sensitivity.getD i 0 * 100 ∧
      th.min ≤ d.sublevel_specificity.getD i 0 * 100) ∧
    (combinedCategory th d i = CombinedCategory.sensOnly ↔
      th.min ≤ d.sublevel_sensitivity.getD i 0 * 100 ∧
      d.sublevel_specificity.getD i 0 * 100 < th.min) ∧
    (combinedCategory th d i = CombinedCategory.specOnly ↔
      th.min ≤ d.sublevel_specificity.getD i 0 * 100 ∧
      d.sublevel_sensitivity.getD i 0 * 100 < th.min) ∧
    (combinedCategory th d i = CombinedCategory.other ↔
      d.sublevel_sensitivity.getD i 0 * 100 < th.min ∧
      d.sublevel_specificity.getD i 0 * 100 < th.min) ∧
    (combinedCategory th d i = CombinedCategory.sensSpec ∨
      combinedCategory th d i = CombinedCategory.sensOnly ∨
      combinedCategory th d i = CombinedCategory.specOnly ∨
      combinedCategory th d i = CombinedCategory.other) := by
  refine ⟨?_, ?_, ?_, ?_, ?_⟩ <;>
    · simp only [combinedCategory]
      split_ifs with h1 h2 h3 <;> simp_all [not_le]

/-- A single-point grid whose only point has `mu = 0.4` and agreement 1:
its mu extremum (as a percentage) is 40, beyond the 33 % cutoff. -/
def c1Point : SimulationPoint :=
  { mu := 2/5, bias := 0, agreement := 1, sensitivity := 1, specificity := 1,
    agreement_cat := "", sensitivity_cat := "", specificity_cat := "",
    sublevel_agreement := [1], sublevel_sensitivity := [1], sublevel_specificity := [1] }

def c1Result : SimulationResult := { mu_data := [c1Point], names := ["CDL 1"] }

/-- C1 counterexample: with one qualifying point at `mu = 0.4`,
`getLimit` returns `"NA"`, not the maximum `mu * 100` formatted to one
decimal (`"40.0"`), so the lookup is not bare filter-then-extremum. -/
theorem getLimit_not_plain_extremum_cex :
    validPoints c1Result Metric.agreement none 90 ≠ [] ∧
    getLimit c1Result Metric.agreement none 90 LimitType.mu ≠
      toFixed1 (listMax ((validPoints c1Result Metric.agreement none 90).map
        fun d => d.mu * 100)) := by
  have hvp : validPoints c1Result Metric.agreement none 90 = [c1Point] := by
    norm_num [validPoints, c1Result, c1Point, metricValue, List.filter]
  have h1 : getLimit c1Result Metric.agreement none 90 LimitType.mu = "NA" := by
    norm_num [getLimit, hvp, listMax, c1Point]
  have h2 : toFixed1 (listMax ((validPoints c1Result Metric.agreement none 90).map
      fun d => d.mu * 100)) = "40.0" := by
    rw [hvp]
    norm_num [listMax, c1Point, toFixed1]
    rfl
  refine ⟨by rw [hvp]; simp, ?_⟩
  rw [h1, h2]
  decide

/-- C1 (amended): `getLimit` keeps exactly the grid points whose metric
value × 100 meets the threshold, returns `"NO"` when none qualifies, and
otherwise returns the chosen extremum (max `mu`×100 for `'mu'`, max
`bias`×100 for `'bias_pos'`, min `bias`×100 for `'bias_neg'`) formatted
to one decimal — unless the 33 % cutoff applies, in which case `"NA"`. -/
theorem getLimit_filter_then_extremum (res : SimulationResult) (metric : Metric)
    (li : Option Nat) (t : ℚ) (ty : LimitType) :
    (∀ d : SimulationPoint,
        d ∈ validPoints res metric li t ↔
          d ∈ res.mu_data ∧ t ≤ metricValue metric li d * 100) ∧
    (validPoints res metric li t = [] → getLimit res metric li t ty = "NO") ∧
    (∀ m : ℚ, chosenExtremum ty m (limitPool res metric li t ty) →
        getLimit res metric li t ty = if naCut ty m then "NA" else toFixed1 m) := by
  refine ⟨?_, ?_, ?_⟩
  · intro d
    simp [validPoints, List.mem_filter]
  · intro h
    simp [getLimit, h]
  · intro m hext
    cases ty with
    | mu =>
      obtain ⟨hm, hub⟩ := hext
      have hne : (validPoints res metric li t).length ≠ 0 := by
        intro h0
        rw [List.length_eq_zero] at h0
        rw [limitPool, h0] at hm
        cases hm
      have hmax : listMax ((validPoints res metric li t).map fun d => d.mu * 100) = m :=
        listMax_eq_of _ m hm hub
      simp only [getLimit, if_neg hne]
      rw [hmax]
      rfl
    | bias_pos =>
      obtain ⟨hm, hub⟩ := hext
      have hne : (validPoints res metric li t).length ≠ 0 := by
        intro h0
        rw [List.length_eq_zero] at h0
        rw [limitPool, h0] at hm
        cases hm
      have hmax : listMax ((validPoints res metric li t).map fun d => d.bias * 100) = m :=
        listMax_eq_of _ m hm hub
      simp only [getLimit, if_neg hne]
      rw [hmax]
      rfl
    | bias_neg =>
      obtain ⟨hm, hlb⟩ := hext
      have hne : (validPoints res metric li t).length ≠ 0 := by
        intro h0
        rw [List.length_eq_zero] at h0
        rw [limitPool, h0] at hm
        cases hm
      have hmin : listMin ((validPoints res metric li t).map fun d => d.bias * 100) = m :=
        listMin_eq_of _ m hm hlb
      simp only [getLimit, if_neg hne]
      rw [hmin]
      rfl

/-- C1 witness: a two-point grid where both points qualify at threshold
90; the mu extremum is 20 and `getLimit` renders it as `"20.0"`. -/
def c1wPointA : SimulationPoint :=
  { mu := 1/10, bias := 0, agreement := 1, sensitivity := 1, specificity := 1,
    agreement_cat := "", sensitivity_cat := "", specificity_cat := "",
    sublevel_agreement := [1], sublevel_sensitivity := [1], sublevel_specificity := [1] }

def c1wPointB : SimulationPoint :=
  { mu := 1/5, bias := 0, agreement := 19/20, sensitivity := 1, specificity := 1,
    agreement_cat := "", sensitivity_cat := "", specificity_cat := "",
    sublevel_agreement := [19/20], sublevel_sensitivity := [1], sublevel_specificity := [1] }

def c1wResult : SimulationResult := { mu_data := [c1wPointA, c1wPointB], names := ["CDL 1"] }

theorem getLimit_filter_then_extremum_witness :
    getLimit c1wResult Metric.agreement none 90 LimitType.mu = "20.0" := by
  have h := (getLimit_filter_then_extremum c1wResult Metric.agreement none 90
    LimitType.mu).2.2 20
  have hvp : validPoints c1wResult Metric.agreement none 90 = [c1wPointA, c1wPointB] := by
    norm_num [validPoints, c1wResult, c1wPointA, c1wPointB, metricValue, List.filter]
  have hch : chosenExtremum LimitType.mu 20
      (limitPool c1wResult Metric.agreement none 90 LimitType.mu) := by
    constructor
    · rw [limitPool, hvp]
      norm_num [c1wPointA, c1wPointB]
    · intro x hx
      rw [limitPool, hvp] at hx
      norm_num [c1wPointA, c1wPointB] at hx
      rcases hx with hx | hx
      · rw [hx]; norm_num
      · rw [hx]
  rw [h hch]
  have : ¬ naCut LimitType.mu (20 : ℚ) := by
    simp only [naCut]
    norm_num
  rw [if_neg this]
  norm_num [toFixed1]
  rfl

/-- A single-point grid whose only point has `bias = -0.4`: the
positive-bias extremum is −40, whose absolute value exceeds 33. -/
def c9Point : SimulationPoint :=
  { mu := 0, bias := -2/5, agreement := 1, sensitivity := 1, specificity := 1,
    agreement_cat := "", sensitivity_cat := "", specificity_cat := "",
    sublevel_agreement := [1], sublevel_sensitivity := [1], sublevel_specificity := [1] }

def c9Result : SimulationResult := { mu_data := [c9Point], names := ["CDL 1"] }

/-- C9 counterexample: the `'bias_pos'` column tests `maxBias > 33`, not
`|maxBias| > 33`: with extremum −40 (absolute value 40 > 33) `getLimit`
renders `"-40.0"`, not `"NA"`, so the cutoff is not applied to the
absolute value identically across columns. -/
theorem bias_pos_abs_cutoff_cex :
    33 < |listMax ((validPoints c9Result Metric.agreement none 90).map
      fun d => d.bias * 100)| ∧
    getLimit c9Result Metric.agreement none 90 LimitType.bias_pos ≠ "NA" := by
  have hvp : validPoints c9Result Metric.agreement none 90 = [c9Point] := by
    norm_num [validPoints, c9Result, c9Point, metricValue, List.filter]
  have h1 : getLimit c9Result Metric.agreement none 90 LimitType.bias_pos = "-40.0" := by
    norm_num [getLimit, hvp, listMax, c9Point, toFixed1]
    rfl
  constructor
  · rw [hvp]
    norm_num [listMax, c9Point]
  · rw [h1]
    decide

/-- C9 (amended): when some grid point qualifies, `getLimit` renders
`"NA"` whenever the extremum exceeds 33 for the measurement-uncertainty
and positive-bias columns, and whenever its absolute value exceeds 33
for the negative-bias column; in particular a bias limit of magnitude in
(33, 100] on its own side of zero is reported `"NA"`. -/
theorem getLimit_na_cutoff_rules (res : SimulationResult) (metric : Metric)
    (li : Option Nat) (t : ℚ) (hne : validPoints res metric li t ≠ []) :
    (33 < listMax ((validPoints res metric li t).map fun d => d.mu * 100) →
      getLimit res metric li t LimitType.mu = "NA") ∧
    (33 < listMax ((validPoints res metric li t).map fun d => d.bias * 100) →
      getLimit res metric li t LimitType.bias_pos = "NA") ∧
    (33 < |listMin ((validPoints res metric li t).map fun d => d.bias * 100)| →
      getLimit res metric li t LimitType.bias_neg = "NA") := by
  have hlen : (validPoints res metric li t).length ≠ 0 := by
    simpa [List.length_eq_zero] using hne
  refine ⟨?_, ?_, ?_⟩ <;> intro h <;> simp only [getLimit, if_neg hlen] <;> rw [if_pos h]

/-- C9 witness: one qualifying point with `mu = 0.4` (extremum 40 > 33)
is rendered `"NA"`. -/
def c9wPoint : SimulationPoint :=
  { mu := 2/5, bias := 0, agreement := 19/20, sensitivity := 1, specificity := 1,
    agreement_cat := "", sensitivity_cat := "", specificity_cat := "",
    sublevel_agreement := [19/20], sublevel_sensitivity := [1], sublevel_specificity := [1] }

def c9wResult : SimulationResult := { mu_data := [c9wPoint], names := ["CDL 1"] }

theorem na_cutoff_witness :
    getLimit c9wResult Metric.agreement none 90 LimitType.mu = "NA" := by
  have hvp : validPoints c9wResult Metric.agreement none 90 = [c9wPoint] := by
    norm_num [validPoints, c9wResult, c9wPoint, metricValue, List.filter]
  refine (getLimit_na_cutoff_rules c9wResult Metric.agreement none 90 ?_).1 ?_
  · rw [hvp]
    simp
  · rw [hvp]
    norm_num [listMax, c9wPoint]

theorem bucket_descending_order_witness :
    standardColor ⟨90, 95, 99⟩ 97 = "rgb(0, 176, 0)" :=
  (bucket_descending_order ⟨90, 95, 99⟩ 97).2.1.mpr (by norm_num)

def c4wState : AppState := { initialAppState with biologicalVariation := 2 }

theorem config_cv_i_witness :
    (buildConfig c4wState (([] : List ℚ))).cv_i ≠ none ∧ (0 : ℚ) < 2 := by
  have hcv : (buildConfig c4wState ([] : List ℚ)).cv_i = some 2 := by
    norm_num [buildConfig, c4wState, initialAppState]
  exact ⟨(config_cv_i_iff_positive c4wState ([] : List ℚ)).1.mpr
      (by norm_num [c4wState, initialAppState]),
    (config_cv_i_iff_positive c4wState ([] : List ℚ)).2 2 hcv⟩

def c10wPoint : SimulationPoint :=
  { mu := 0, bias := 0, agreement := 1, sensitivity := 1, specificity := 1,
    agreement_cat := "", sensitivity_cat := "", specificity_cat := "",
    sublevel_agreement := [1], sublevel_sensitivity := [1], sublevel_specificity := [1/2] }

theorem combined_plot_witness :
    combinedCategory ⟨90, 95, 99⟩ c10wPoint 0 = CombinedCategory.sensOnly :=
  (combined_plot_partition ⟨90, 95, 99⟩ c10wPoint 0).2.1.mpr (by norm_num [c10wPoint])

end APSCalc
